import Mathlib

/-!
Verification of the AutoHeal-GCP healing engine
(`cloud-functions/healing_function/main.py`).

The Python module is shallowly embedded: JSON/dict payloads become the
inductive type `PyVal`; a Python expression that may raise becomes a value
of `Except String _`; the external GCP calls (stop/start a VM, get/update a
Cloud Run service) are modelled by an environment `InfraEnv` recording the
result each call would produce, and every function additionally returns the
trace of infrastructure calls it issued, as a `List Event`.
-/

namespace AutoHeal

/-- Python values as they arrive from `json.loads` / the Pub/Sub payload. -/
inductive PyVal where
  | pnull : PyVal
  | pbool : Bool → PyVal
  | pint : Int → PyVal
  | pstr : String → PyVal
  | plist : List PyVal → PyVal
  | pdict : List (String × PyVal) → PyVal

/-- First-match association lookup, the embedding of Python dict indexing. -/
def lookupKey (k : String) : List (String × PyVal) → Option PyVal
  | [] => none
  | (k', v) :: rest => if k' = k then some v else lookupKey k rest

/-- Embedding of Python `d.get(k, default)`.  On a non-dict value the
attribute access raises `AttributeError`, exactly as in CPython. -/
def pyGet (v : PyVal) (k : String) (default : PyVal) : Except String PyVal :=
  match v with
  | .pdict es => .ok ((lookupKey k es).getD default)
  | _ => .error "AttributeError: object has no attribute get"

/-- Python truthiness of a value (`bool(v)`). -/
def truthy : PyVal → Bool
  | .pnull => false
  | .pbool b => b
  | .pint n => n ≠ 0
  | .pstr s => ¬ s.isEmpty
  | .plist xs => ¬ xs.isEmpty
  | .pdict es => ¬ es.isEmpty

/-- Character-by-character lowercase (structural, so it computes by
`rfl`/`decide`; agrees with `String.toLower`). -/
def lowerStr (s : String) : String :=
  ⟨s.data.map Char.toLower⟩

/-- Embedding of Python `v.lower()`: defined on strings, raises otherwise. -/
def pyLower : PyVal → Except String String
  | .pstr s => .ok (lowerStr s)
  | _ => .error "AttributeError: object has no attribute lower"

/-- Python `v == "lit"` for a string literal: true only for an equal string. -/
def pyEqStr (v : PyVal) (lit : String) : Bool :=
  match v with
  | .pstr s => s = lit
  | _ => false

/-- The string a value contributes when interpolated into an f-string. -/
def pyToName : PyVal → String
  | .pstr s => s
  | .pnull => "None"
  | .pint n => toString n
  | .pbool b => toString b
  | .plist _ => "<list>"
  | .pdict _ => "<dict>"

/-- Contiguous-sublist test on characters, the embedding of Python's
`pat in s` on strings. -/
def subOf (pat : List Char) : List Char → Bool
  | [] => pat.isPrefixOf ([] : List Char)
  | c :: rest => pat.isPrefixOf (c :: rest) || subOf pat rest

/-- Python `pat in s` for strings. -/
def strContains (s pat : String) : Bool :=
  subOf pat.data s.data

/-- The category cascade of `classify_alert` once the lowercased condition
name is in hand (main.py lines 89-98). -/
def categoryOf (condition_name : String) : String :=
  if strContains condition_name "cpu" then
    "high_cpu"
  else if strContains condition_name "error" || strContains condition_name "5xx" then
    "error_rate_spike"
  else if strContains condition_name "memory" then
    "memory_leak"
  else if strContains condition_name "uptime" || strContains condition_name "availability" then
    "service_down"
  else
    "unknown"

/-- Embedding of `AutoHealEngine.classify_alert` (main.py lines 84-98):
`alert_data.get('incident', {}).get('condition_display_name', '').lower()`
followed by the substring cascade; a raised `AttributeError` propagates. -/
def classify_alert (alert_data : PyVal) : Except String String :=
  match pyGet alert_data "incident" (.pdict []) with
  | .error e => .error e
  | .ok incident =>
    match pyGet incident "condition_display_name" (.pstr "") with
    | .error e => .error e
    | .ok raw =>
      match pyLower raw with
      | .error e => .error e
      | .ok condition_name => .ok (categoryOf condition_name)

/-- The dict returned by `extract_resource_info`: its three keys are always
present, so it is embedded as a structure. -/
structure ResourceInfo where
  type : PyVal
  labels : PyVal
  name : PyVal

/-- Embedding of `AutoHealEngine.extract_resource_info` (main.py lines
100-110).  The `or` between the two label lookups short-circuits exactly as
in Python: the second `resource.get('labels', {}).get('service_name',
'unknown')` is evaluated only when the `instance_name` value is falsy. -/
def extract_resource_info (alert_data : PyVal) : Except String ResourceInfo :=
  match pyGet alert_data "incident" (.pdict []) with
  | .error e => .error e
  | .ok incident =>
  match pyGet incident "resource" (.pdict []) with
  | .error e => .error e
  | .ok resource =>
  match pyGet resource "type" (.pstr "unknown") with
  | .error e => .error e
  | .ok ty =>
  match pyGet resource "labels" (.pdict []) with
  | .error e => .error e
  | .ok labels =>
  match pyGet resource "labels" (.pdict []) with
  | .error e => .error e
  | .ok labelsA =>
  match pyGet labelsA "instance_name" .pnull with
  | .error e => .error e
  | .ok inst =>
  if truthy inst then
    .ok { type := ty, labels := labels, name := inst }
  else
    match pyGet resource "labels" (.pdict []) with
    | .error e => .error e
    | .ok labelsB =>
    match pyGet labelsB "service_name" (.pstr "unknown") with
    | .error e => .error e
    | .ok svcName => .ok { type := ty, labels := labels, name := svcName }

/-- One container environment variable of a Cloud Run revision template. -/
structure EnvVar where
  name : String
  value : String
deriving DecidableEq

/-- One container of a Cloud Run revision template. -/
structure Container where
  env : List EnvVar
deriving DecidableEq

/-- The slice of a Cloud Run `Service` the engine reads:
`template.scaling.max_instance_count` (0 when unset, as in proto3) and
`template.containers[*].env`. -/
structure RunService where
  maxInstanceCount : Nat
  containers : List Container
deriving DecidableEq

/-- Result environment for the external GCP calls: what each call issued by
the engine would return (success, or the message of the exception it
raises). -/
structure InfraEnv where
  stopRes : Except String Unit
  stopWaitRes : Except String Unit
  startRes : Except String Unit
  startWaitRes : Except String Unit
  getServiceRes : Except String RunService
  updateScaleRes : Except String Unit
  updateTemplateRes : Except String Unit
  now : String
  projectId : String
  zone : String
  region : String

/-- Trace events: method entries and infrastructure calls. -/
inductive Event where
  | enterAction : String → String → Event
  | stopCall : String → Event
  | waitOp : String → Event
  | startCall : String → Event
  | getService : String → Event
  | updateService : String → Option Nat → Event
deriving DecidableEq

/-- The outcome dict of one recovery action.  Keys that a given branch does
not put in the dict are `none` (so Python's `result.get('status')` is the
`status` field, with `none` standing for an absent key). -/
structure Outcome where
  action : String
  status : Option String := none
  reason : Option String := none
  message : Option String := none
  error : Option String := none
  instanceName : Option String := none
  service : Option String := none
  alertData : Option PyVal := none

/-- Embedding of `AutoHealEngine.restart_vm_instance` (main.py lines
163-210): stop, wait for the stop operation, start, wait for the start
operation; any exception is caught and becomes a `failed` outcome. -/
def restart_vm_instance (e : InfraEnv) (instance_name : String) :
    Outcome × List Event :=
  let failed := fun (msg : String) (tr : List Event) =>
    ({ action := "vm_restart", status := some "failed",
       instanceName := some instance_name, error := some msg }, tr)
  let tr1 := [Event.enterAction "restart_vm_instance" instance_name,
              Event.stopCall instance_name]
  match e.stopRes with
  | .error msg => failed msg tr1
  | .ok _ =>
    let tr2 := tr1 ++ [Event.waitOp "stop"]
    match e.stopWaitRes with
    | .error msg => failed msg tr2
    | .ok _ =>
      let tr3 := tr2 ++ [Event.startCall instance_name]
      match e.startRes with
      | .error msg => failed msg tr3
      | .ok _ =>
        let tr4 := tr3 ++ [Event.waitOp "start"]
        match e.startWaitRes with
        | .error msg => failed msg tr4
        | .ok _ =>
          ({ action := "vm_restart", status := some "success",
             instanceName := some instance_name,
             message := some ("Successfully restarted VM instance " ++ instance_name) },
           tr4)

/-- Embedding of `AutoHealEngine.scale_cloud_run_service` (main.py lines
212-275).  `current_max_instances = service.template.scaling.max_instance_count or 10`
is the Python `or` on a proto int (0 when unset); the new ceiling is
`min(current + 5, 50)`; the update is issued only when the new ceiling is
strictly greater. -/
def scale_cloud_run_service (e : InfraEnv) (service_name : String) :
    Outcome × List Event :=
  let p := e.projectId
  let r := e.region
  let path := "projects/" ++ p ++ "/locations/" ++ r ++ "/services/" ++ service_name
  let tr0 := [Event.enterAction "scale_cloud_run_service" service_name,
              Event.getService path]
  match e.getServiceRes with
  | .error msg =>
    ({ action := "cloud_run_scale", status := some "failed",
       service := some service_name, error := some msg }, tr0)
  | .ok svc =>
    let current := if svc.maxInstanceCount = 0 then 10 else svc.maxInstanceCount
    let newMax := min (current + 5) 50
    if current < newMax then
      let tr := tr0 ++ [Event.updateService "template.scaling.max_instance_count" (some newMax)]
      match e.updateScaleRes with
      | .ok _ =>
        ({ action := "cloud_run_scale", status := some "success",
           service := some service_name,
           message := some ("Successfully scaled Cloud Run service " ++ service_name
                             ++ " to max instances " ++ toString newMax) }, tr)
      | .error msg =>
        ({ action := "cloud_run_scale", status := some "failed",
           service := some service_name, error := some msg }, tr)
    else
      ({ action := "cloud_run_scale", status := some "skipped",
         service := some service_name,
         message := some ("Max instances already at or above target ("
                           ++ toString newMax ++ ") for " ++ service_name) }, tr0)

/-- The env-var loop of `restart_cloud_run_service`: set the value of the
first `RESTART_TIMESTAMP` entry, or report that none was found. -/
def updateFirstStamp (stamp : String) : List EnvVar → Option (List EnvVar)
  | [] => none
  | ev :: rest =>
    if ev.name = "RESTART_TIMESTAMP" then
      some ({ ev with value := stamp } :: rest)
    else
      (updateFirstStamp stamp rest).map (ev :: ·)

/-- Embedding of `AutoHealEngine.restart_cloud_run_service` (main.py lines
277-340): read the service, stamp `RESTART_TIMESTAMP` into the first
container's env (appending it when absent), update with mask `template`,
wait; any exception (including the `containers[0]` index error on an empty
container list) becomes a `failed` outcome. -/
def restart_cloud_run_service (e : InfraEnv) (service_name : String) :
    Outcome × List Event :=
  let p := e.projectId
  let r := e.region
  let path := "projects/" ++ p ++ "/locations/" ++ r ++ "/services/" ++ service_name
  let tr0 := [Event.enterAction "restart_cloud_run_service" service_name,
              Event.getService path]
  let failed := fun (msg : String) (tr : List Event) =>
    ({ action := "cloud_run_restart", status := some "failed",
       service := some service_name, error := some msg }, tr)
  match e.getServiceRes with
  | .error msg => failed msg tr0
  | .ok svc =>
    match svc.containers with
    | [] => failed "IndexError: list index out of range" tr0
    | c0 :: _rest =>
      let _newEnv :=
        (updateFirstStamp e.now c0.env).getD
          (c0.env ++ [{ name := "RESTART_TIMESTAMP", value := e.now }])
      let tr := tr0 ++ [Event.updateService "template" none]
      match e.updateTemplateRes with
      | .ok _ =>
        ({ action := "cloud_run_restart", status := some "success",
           service := some service_name,
           message := some ("Successfully initiated restart (new revision deployment) for Cloud Run service "
                             ++ service_name) }, tr)
      | .error msg => failed msg tr

/-- The inline `alert_only` dict of the unsupported-resource branches of
`handle_high_cpu` / `handle_service_down` (main.py lines 122 and 134).
Note that it has a `reason` key but no `status` key. -/
def unsupportedOutcome (resource_type : PyVal) : Outcome :=
  { action := "alert_only",
    reason := some ("Unsupported resource type: " ++ pyToName resource_type) }

/-- Embedding of `AutoHealEngine.handle_high_cpu` (main.py lines 112-122). -/
def handle_high_cpu (e : InfraEnv) (info : ResourceInfo) : Outcome × List Event :=
  if pyEqStr info.type "gce_instance" then
    restart_vm_instance e (pyToName info.name)
  else if pyEqStr info.type "cloud_run_revision" then
    scale_cloud_run_service e (pyToName info.name)
  else
    (unsupportedOutcome info.type, [])

/-- Embedding of `AutoHealEngine.handle_service_down` (main.py lines
124-134). -/
def handle_service_down (e : InfraEnv) (info : ResourceInfo) : Outcome × List Event :=
  if pyEqStr info.type "gce_instance" then
    restart_vm_instance e (pyToName info.name)
  else if pyEqStr info.type "cloud_run_revision" then
    restart_cloud_run_service e (pyToName info.name)
  else
    (unsupportedOutcome info.type, [])

/-- Embedding of `AutoHealEngine.handle_memory_leak` (main.py lines
136-139): delegates to `handle_service_down`. -/
def handle_memory_leak (e : InfraEnv) (info : ResourceInfo) : Outcome × List Event :=
  handle_service_down e info

/-- Embedding of `AutoHealEngine.handle_error_rate_spike` (main.py lines
141-153): for a Cloud Run revision, scale first; when the scale outcome's
`status` is not `'success'`, restart and report that outcome instead. -/
def handle_error_rate_spike (e : InfraEnv) (info : ResourceInfo) : Outcome × List Event :=
  if pyEqStr info.type "cloud_run_revision" then
    let scaled := scale_cloud_run_service e (pyToName info.name)
    if scaled.1.status ≠ some "success" then
      let restarted := restart_cloud_run_service e (pyToName info.name)
      (restarted.1, scaled.2 ++ restarted.2)
    else
      scaled
  else
    handle_service_down e info

/-- Embedding of `AutoHealEngine.handle_unknown_alert` (main.py lines
155-161): an `alert_only` dict with a `reason` and the raw alert, and no
`status` key. -/
def handle_unknown_alert (_info : ResourceInfo) (alert_data : PyVal) :
    Outcome × List Event :=
  ({ action := "alert_only",
     reason := some "Unknown alert type - manual intervention required",
     alertData := some alert_data }, [])

/-- The `recovery_actions` dispatch of `process_alert` (main.py lines 41-46
and 57-60): the four known categories go to their handler, everything else
to `handle_unknown_alert`. -/
def dispatch (e : InfraEnv) (alert_type : String) (info : ResourceInfo)
    (alert_data : PyVal) : Outcome × List Event :=
  if alert_type = "high_cpu" then handle_high_cpu e info
  else if alert_type = "service_down" then handle_service_down e info
  else if alert_type = "memory_leak" then handle_memory_leak e info
  else if alert_type = "error_rate_spike" then handle_error_rate_spike e info
  else handle_unknown_alert info alert_data

/-- Configuration and call results of the notification and logging sinks
(the module-level `SLACK_WEBHOOK_URL`, `SENDGRID_API_KEY`,
`NOTIFICATION_EMAIL` plus the outcome of each outbound HTTP post and of the
log write). -/
structure SinkEnv where
  slackWebhookUrl : Option String
  sendgridApiKey : Option String
  notificationEmail : String
  slackPostRes : Except String Unit
  emailPostRes : Except String Unit
  logWriteRes : Except String Unit

/-- Truthiness of an environment variable read (`os.environ.get` returns
`None` when unset; the empty string is also falsy). -/
def optTruthy : Option String → Bool
  | none => false
  | some s => ¬ s.isEmpty

/-- Embedding of `send_slack_notification` (main.py lines 433-451): the
post may raise, the surrounding `try/except` swallows everything. -/
def send_slack_notification (s : SinkEnv) (_message : String) : Except String Unit :=
  match s.slackPostRes with
  | .ok _ => .ok ()
  | .error _ => .ok ()

/-- Embedding of `send_email_notification` (main.py lines 453-499): skips
silently when unconfigured, otherwise posts; both `except` arms swallow the
failure. -/
def send_email_notification (s : SinkEnv) (_message _alert_type : String) :
    Except String Unit :=
  if ¬ (optTruthy s.sendgridApiKey ∧ ¬ s.notificationEmail.isEmpty) then
    .ok ()
  else
    match s.emailPostRes with
    | .ok _ => .ok ()
    | .error _ => .ok ()

/-- Embedding of `format_notification_message` (main.py lines 415-431): a
pure string build, total on our model. -/
def format_notification_message (alert_type : String) (info : ResourceInfo)
    (result : Outcome) : String :=
  let emoji := if result.status = some "success" then "ok" else "fail"
  emoji ++ " AutoHeal Action Report: " ++ alert_type ++ " on "
    ++ pyToName info.name ++ " (" ++ pyToName info.type ++ ") action "
    ++ result.action ++ " status " ++ (result.status.getD "Unknown")
    ++ " details " ++ (result.message.getD (result.error.getD "No additional details"))

/-- Embedding of `send_notification` (main.py lines 399-413): formats the
message, posts to each configured sink, and the outer `try/except` swallows
any failure. -/
def send_notification (s : SinkEnv) (alert_type : String) (info : ResourceInfo)
    (result : Outcome) : Except String Unit :=
  let message := format_notification_message alert_type info result
  let slackStep : Except String Unit :=
    if optTruthy s.slackWebhookUrl then send_slack_notification s message else .ok ()
  let body : Except String Unit :=
    match slackStep with
    | .error e => .error e
    | .ok _ =>
      if optTruthy s.sendgridApiKey ∧ optTruthy (some s.notificationEmail) then
        send_email_notification s message alert_type
      else
        .ok ()
  match body with
  | .ok _ => .ok ()
  | .error _ => .ok ()

/-- Embedding of `log_healing_action` (main.py lines 383-397): builds the
log entry (severity INFO only for a `success` outcome) and writes it; the
`try/except` swallows any failure. -/
def log_healing_action (s : SinkEnv) (_alert_type : String) (_info : ResourceInfo)
    (result : Outcome) : Except String Unit :=
  let _severity := if result.status = some "success" then "INFO" else "ERROR"
  match s.logWriteRes with
  | .ok _ => .ok ()
  | .error _ => .ok ()

/-- The dict returned by `process_alert`: `status` is always present, the
other keys only on their branch. -/
structure TopResult where
  status : String
  alertType : Option String := none
  resource : Option ResourceInfo := none
  actionTaken : Option String := none
  timestamp : Option String := none
  error : Option String := none

/-- The two fallible steps at the head of `process_alert`'s `try` block. -/
def classify_and_extract (alert_data : PyVal) :
    Except String (String × ResourceInfo) :=
  match classify_alert alert_data with
  | .error e => .error e
  | .ok alert_type =>
    match extract_resource_info alert_data with
    | .error e => .error e
    | .ok info => .ok (alert_type, info)

/-- Embedding of `AutoHealEngine.process_alert` (main.py lines 48-82):
classify, extract, dispatch to the recovery action, log and notify
(both swallowed), and return the success dict; any exception raised inside
the `try` is caught and becomes the error dict. -/
def process_alert (e : InfraEnv) (s : SinkEnv) (alert_data : PyVal) : TopResult :=
  match classify_and_extract alert_data with
  | .error msg =>
    { status := "error", error := some msg, timestamp := some e.now }
  | .ok (alert_type, info) =>
    let result := (dispatch e alert_type info alert_data).1
    let _ := log_healing_action s alert_type info result
    let _ := send_notification s alert_type info result
    { status := "success", alertType := some alert_type, resource := some info,
      actionTaken := some result.action, timestamp := some e.now }

/-- The max-instance ceiling of a service after a trace of calls: the last
`updateService` on the scaling field sets it. -/
def ceilingAfter (c : Nat) : List Event → Nat
  | [] => c
  | Event.updateService _ (some n) :: rest => ceilingAfter n rest
  | _ :: rest => ceilingAfter c rest

/-- Runs `scale_cloud_run_service` `n` times against a service whose
ceiling starts at `c` and is updated by whatever calls each run issues,
collecting the outcomes. -/
def scale_runs (e : InfraEnv) (cs : List Container) (service_name : String) :
    Nat → Nat → List Outcome
  | 0, _ => []
  | n + 1, c =>
    let e' := { e with getServiceRes := .ok { maxInstanceCount := c, containers := cs } }
    let run := scale_cloud_run_service e' service_name
    run.1 :: scale_runs e cs service_name n (ceilingAfter c run.2)

/-! ## Helper lemmas -/

theorem classify_alert_eq (a inc : PyVal) (s : String)
    (ha : pyGet a "incident" (.pdict []) = .ok inc)
    (hc : pyGet inc "condition_display_name" (.pstr "") = .ok (.pstr s)) :
    classify_alert a = .ok (categoryOf (lowerStr s)) := by
  unfold classify_alert
  rw [ha]
  show (match pyGet inc "condition_display_name" (.pstr "") with
        | Except.error e => (Except.error e : Except String String)
        | Except.ok raw =>
          match pyLower raw with
          | Except.error e => Except.error e
          | Except.ok condition_name => Except.ok (categoryOf condition_name)) = _
  rw [hc]
  rfl

/-! ## Shared concrete fixtures -/

/-- An environment in which every infrastructure call succeeds; the Cloud
Run service has ceiling 10 and one container. -/
def envAllOk : InfraEnv :=
  { stopRes := .ok (), stopWaitRes := .ok (), startRes := .ok (),
    startWaitRes := .ok (),
    getServiceRes := .ok { maxInstanceCount := 10, containers := [{ env := [] }] },
    updateScaleRes := .ok (), updateTemplateRes := .ok (),
    now := "2026-01-01T00:00:00", projectId := "proj", zone := "us-central1-a",
    region := "us-central1" }

/-- The end-to-end scenario-1 alert of the spec. -/
def alertCpu : PyVal := .pdict [("incident", .pdict [
  ("condition_display_name", .pstr "CPU utilization above threshold"),
  ("resource", .pdict [("type", .pstr "gce_instance"),
    ("labels", .pdict [("instance_name", .pstr "web-1")])])])]

/-! ## C2 -/

/-- C2: `classify_alert` lowercases the condition display name and tests the
substrings in the fixed order cpu, error/5xx, memory, uptime/availability,
returning the first match's category and `unknown` when none match; any name
containing `cpu` yields `high_cpu` regardless of other substrings. -/
theorem classify_alert_priority (a inc : PyVal) (s : String)
    (ha : pyGet a "incident" (.pdict []) = .ok inc)
    (hc : pyGet inc "condition_display_name" (.pstr "") = .ok (.pstr s)) :
    (strContains (lowerStr s) "cpu" = true → classify_alert a = .ok "high_cpu") ∧
    (strContains (lowerStr s) "cpu" = false →
      (strContains (lowerStr s) "error" || strContains (lowerStr s) "5xx") = true →
      classify_alert a = .ok "error_rate_spike") ∧
    (strContains (lowerStr s) "cpu" = false →
      (strContains (lowerStr s) "error" || strContains (lowerStr s) "5xx") = false →
      strContains (lowerStr s) "memory" = true →
      classify_alert a = .ok "memory_leak") ∧
    (strContains (lowerStr s) "cpu" = false →
      (strContains (lowerStr s) "error" || strContains (lowerStr s) "5xx") = false →
      strContains (lowerStr s) "memory" = false →
      (strContains (lowerStr s) "uptime" || strContains (lowerStr s) "availability") = true →
      classify_alert a = .ok "service_down") ∧
    (strContains (lowerStr s) "cpu" = false →
      (strContains (lowerStr s) "error" || strContains (lowerStr s) "5xx") = false →
      strContains (lowerStr s) "memory" = false →
      (strContains (lowerStr s) "uptime" || strContains (lowerStr s) "availability") = false →
      classify_alert a = .ok "unknown") := by
  have heq := classify_alert_eq a inc s ha hc
  refine ⟨fun h1 => ?_, fun h1 h2 => ?_, fun h1 h2 h3 => ?_,
    fun h1 h2 h3 h4 => ?_, fun h1 h2 h3 h4 => ?_⟩
  · rw [heq]; unfold categoryOf; simp only [h1]; rfl
  · rw [heq]; unfold categoryOf; simp only [h1, h2]; rfl
  · rw [heq]; unfold categoryOf; simp only [h1, h2, h3]; rfl
  · rw [heq]; unfold categoryOf; simp only [h1, h2, h3, h4]; rfl
  · rw [heq]; unfold categoryOf; simp only [h1, h2, h3, h4]; rfl

/-- A condition name containing cpu, memory and error at once. -/
def alertMixed : PyVal := .pdict [("incident", .pdict [
  ("condition_display_name", .pstr "Memory CPU Error spike")])]

/-- Witness for C2: the mixed condition name "Memory CPU Error spike" is
classified `high_cpu`, the cpu test winning over memory and error. -/
theorem classify_alert_priority_witness :
    pyGet alertMixed "incident" (.pdict [])
        = .ok (.pdict [("condition_display_name", .pstr "Memory CPU Error spike")]) ∧
    strContains (lowerStr "Memory CPU Error spike") "memory" = true ∧
    strContains (lowerStr "Memory CPU Error spike") "error" = true ∧
    classify_alert alertMixed = .ok "high_cpu" :=
  ⟨rfl, by decide, by decide,
    (classify_alert_priority alertMixed
      (.pdict [("condition_display_name", .pstr "Memory CPU Error spike")])
      "Memory CPU Error spike" rfl rfl).1 (by decide)⟩

/-! ## C7 -/

/-- C7 counterexample: an alert whose condition display name is the integer
42 makes `classify_alert` raise (`.lower()` on a non-string), and an alert
whose incident entry is a string makes the `.get` attribute access raise;
neither degrades to the Unknown category. -/
theorem classify_alert_raises_counterexample :
    classify_alert (.pdict [("incident", .pdict [("condition_display_name", .pint 42)])])
        = .error "AttributeError: object has no attribute lower" ∧
    classify_alert (.pdict [("incident", .pstr "oops")])
        = .error "AttributeError: object has no attribute get" :=
  ⟨rfl, rfl⟩

/-- C7 (amended): `classify_alert` never raises provided the payload and its
incident entry (when present) are dictionaries and the condition display
name (when present) is a string; data that is merely absent degrades to the
`unknown` category. -/
theorem classify_alert_total_on_wellformed (a inc : PyVal) (s : String)
    (ha : pyGet a "incident" (.pdict []) = .ok inc)
    (hc : pyGet inc "condition_display_name" (.pstr "") = .ok (.pstr s)) :
    (∃ t, classify_alert a = .ok t) ∧
    (s = "" → classify_alert a = .ok "unknown") := by
  have heq := classify_alert_eq a inc s ha hc
  refine ⟨⟨categoryOf (lowerStr s), heq⟩, fun hs => ?_⟩
  subst hs
  rw [heq]
  rfl

/-- Witness for C7 (amended): the empty-dict payload (absent incident,
hence absent condition name) is classified `unknown` without raising. -/
theorem classify_alert_total_on_wellformed_witness :
    pyGet (.pdict []) "incident" (.pdict []) = .ok (.pdict []) ∧
    pyGet (.pdict []) "condition_display_name" (.pstr "") = .ok (.pstr "") ∧
    (∃ t, classify_alert (.pdict []) = .ok t) ∧
    classify_alert (.pdict []) = .ok "unknown" := by
  have h := classify_alert_total_on_wellformed (.pdict []) (.pdict []) "" rfl rfl
  exact ⟨rfl, rfl, h.1, h.2 rfl⟩

/-! ## C6 -/

/-- The alert whose only resource label is an empty service name. -/
def alertEmptySvcName : PyVal := .pdict [("incident", .pdict [
  ("resource", .pdict [("labels", .pdict [("service_name", .pstr "")])])])]

/-- C6 counterexample: with a present-but-empty `service_name` label the
extracted name is the empty string, and with a non-dict incident the
extractor raises instead of returning a descriptor — so `extract_resource_info`
is neither total nor empty-name-free. -/
theorem extract_resource_info_counterexample :
    (extract_resource_info alertEmptySvcName).map (fun i => i.name) = .ok (.pstr "") ∧
    extract_resource_info (.pdict [("incident", .pstr "oops")])
        = .error "AttributeError: object has no attribute get" :=
  ⟨rfl, rfl⟩

/-- C6 (amended): on every payload whose incident, resource and labels
entries (when present) are dictionaries, `extract_resource_info` returns a
complete descriptor: the kind defaults to the string `unknown`, the labels
default to the empty map, and the name is the `instance_name` label when
that is truthy, else the `service_name` label, else the literal `unknown`;
the name is never absent, though it can be the empty string when the
`service_name` label is present and empty. -/
theorem extract_resource_info_wellformed (a inc : PyVal) (es ls : List (String × PyVal))
    (ha : pyGet a "incident" (.pdict []) = .ok inc)
    (hr : pyGet inc "resource" (.pdict []) = .ok (.pdict es))
    (hl : (lookupKey "labels" es).getD (.pdict []) = .pdict ls) :
    extract_resource_info a = .ok
      { type := (lookupKey "type" es).getD (.pstr "unknown"),
        labels := .pdict ls,
        name := if truthy ((lookupKey "instance_name" ls).getD .pnull)
                then (lookupKey "instance_name" ls).getD .pnull
                else (lookupKey "service_name" ls).getD (.pstr "unknown") } ∧
    (lookupKey "instance_name" ls = none → lookupKey "service_name" ls = none →
      (extract_resource_info a).map (fun i => i.name) = .ok (.pstr "unknown")) := by
  have hmain : extract_resource_info a = .ok
      { type := (lookupKey "type" es).getD (.pstr "unknown"),
        labels := .pdict ls,
        name := if truthy ((lookupKey "instance_name" ls).getD .pnull)
                then (lookupKey "instance_name" ls).getD .pnull
                else (lookupKey "service_name" ls).getD (.pstr "unknown") } := by
    unfold extract_resource_info
    simp only [ha, hr]
    simp only [pyGet, hl]
    by_cases h : truthy ((lookupKey "instance_name" ls).getD .pnull) <;> simp [h]
  refine ⟨hmain, fun h1 h2 => ?_⟩
  rw [hmain]
  simp [h1, h2, truthy, Except.map]

/-- The incident object of `alertCpu`. -/
def incCpu : PyVal := .pdict [
  ("condition_display_name", .pstr "CPU utilization above threshold"),
  ("resource", .pdict [("type", .pstr "gce_instance"),
    ("labels", .pdict [("instance_name", .pstr "web-1")])])]

/-- Witness for C6 (amended): the scenario-1 alert extracts to the complete
descriptor with kind `gce_instance` and name `web-1`. -/
theorem extract_resource_info_wellformed_witness :
    pyGet alertCpu "incident" (.pdict []) = .ok incCpu ∧
    pyGet incCpu "resource" (.pdict [])
        = .ok (.pdict [("type", .pstr "gce_instance"),
            ("labels", .pdict [("instance_name", .pstr "web-1")])]) ∧
    extract_resource_info alertCpu =
      .ok { type := .pstr "gce_instance",
            labels := .pdict [("instance_name", .pstr "web-1")],
            name := .pstr "web-1" } :=
  ⟨rfl, rfl,
    (extract_resource_info_wellformed alertCpu incCpu
      [("type", .pstr "gce_instance"),
       ("labels", .pdict [("instance_name", .pstr "web-1")])]
      [("instance_name", .pstr "web-1")] rfl rfl rfl).1⟩

/-! ## C5 -/

/-- A resource descriptor of an unsupported kind. -/
def infoTopic : ResourceInfo :=
  { type := .pstr "pubsub_topic", labels := .pdict [], name := .pstr "unknown" }

/-- C5 counterexample: the `alert_only` outcome of an unknown alert carries
no `status` key at all — its status is absent (`none`), not the string
`skipped` the claim asserts. -/
theorem alert_only_status_counterexample :
    (dispatch envAllOk "unknown" infoTopic (.pdict [])).1.action = "alert_only" ∧
    (dispatch envAllOk "unknown" infoTopic (.pdict [])).1.status = none ∧
    ¬ (dispatch envAllOk "unknown" infoTopic (.pdict [])).1.status = some "skipped" :=
  ⟨rfl, rfl, fun h => Option.noConfusion h⟩

/-- C5 (amended): every alert whose category is outside the recovery table
(in particular `unknown`), and every alert of a known category whose
resource kind is neither `gce_instance` nor `cloud_run_revision`, decides
`alert_only`; every such outcome carries a reason string and has no
`status` key (absent, `none`), so its status is never `failed` (and never
`success` or `skipped`). -/
theorem alert_only_outcomes (e : InfraEnv) (info : ResourceInfo) (a : PyVal)
    (t : String) :
    (t ≠ "high_cpu" → t ≠ "service_down" → t ≠ "memory_leak" →
      t ≠ "error_rate_spike" →
      (dispatch e t info a).1.action = "alert_only" ∧
      (dispatch e t info a).1.reason.isSome = true ∧
      (dispatch e t info a).1.status = none ∧
      (dispatch e t info a).1.status ≠ some "failed") ∧
    (pyEqStr info.type "gce_instance" = false →
      pyEqStr info.type "cloud_run_revision" = false →
      (dispatch e t info a).1.action = "alert_only" ∧
      (dispatch e t info a).1.reason.isSome = true ∧
      (dispatch e t info a).1.status = none ∧
      (dispatch e t info a).1.status ≠ some "failed") := by
  constructor
  · intro h1 h2 h3 h4
    simp [dispatch, h1, h2, h3, h4, handle_unknown_alert]
  · intro hg hc
    have hsd : handle_service_down e info = (unsupportedOutcome info.type, []) := by
      simp [handle_service_down, hg, hc]
    have hhc : handle_high_cpu e info = (unsupportedOutcome info.type, []) := by
      simp [handle_high_cpu, hg, hc]
    have hml : handle_memory_leak e info = (unsupportedOutcome info.type, []) := by
      simp [handle_memory_leak, hsd]
    have hes : handle_error_rate_spike e info = (unsupportedOutcome info.type, []) := by
      simp [handle_error_rate_spike, hc, hsd]
    by_cases e1 : t = "high_cpu" <;> by_cases e2 : t = "service_down" <;>
      by_cases e3 : t = "memory_leak" <;> by_cases e4 : t = "error_rate_spike" <;>
      simp_all [dispatch, handle_unknown_alert, unsupportedOutcome]

/-- Witness for C5 (amended): an unknown-category alert on an unsupported
resource kind decides `alert_only` with an absent status. -/
theorem alert_only_outcomes_witness :
    ("unknown" : String) ≠ "high_cpu" ∧
    pyEqStr infoTopic.type "gce_instance" = false ∧
    ((dispatch envAllOk "unknown" infoTopic (.pdict [])).1.action = "alert_only" ∧
      (dispatch envAllOk "unknown" infoTopic (.pdict [])).1.reason.isSome = true ∧
      (dispatch envAllOk "unknown" infoTopic (.pdict [])).1.status = none ∧
      (dispatch envAllOk "unknown" infoTopic (.pdict [])).1.status ≠ some "failed") :=
  ⟨by decide, rfl,
    (alert_only_outcomes envAllOk infoTopic (.pdict []) "unknown").1
      (by decide) (by decide) (by decide) (by decide)⟩

/-! ## C1 -/

theorem scale_trace_shape (e : InfraEnv) (nm : String) :
    ∃ rest, (scale_cloud_run_service e nm).2
      = Event.enterAction "scale_cloud_run_service" nm :: rest := by
  unfold scale_cloud_run_service
  dsimp only
  repeat' split
  all_goals exact ⟨_, rfl⟩

theorem scale_no_restart_entry (e : InfraEnv) (nm t : String) :
    Event.enterAction "restart_cloud_run_service" t ∉ (scale_cloud_run_service e nm).2 := by
  unfold scale_cloud_run_service
  dsimp only
  repeat' split
  all_goals simp

theorem restart_action_label (e : InfraEnv) (nm : String) :
    (restart_cloud_run_service e nm).1.action = "cloud_run_restart" := by
  unfold restart_cloud_run_service
  dsimp only
  repeat' split
  all_goals rfl

/-- C1: for an ErrorRateSpike alert on a `cloud_run_revision` resource the
engine invokes ServiceScale first (the trace starts with its entry); when
and only when the scale outcome's status is not `success` it invokes
ServiceRestart and reports that outcome as the single result, the full
trace being the scale calls followed by the restart calls; when the scale
outcome is `success` that outcome is reported and ServiceRestart is never
entered. -/
theorem error_rate_spike_escalation (e : InfraEnv) (info : ResourceInfo) (a : PyVal)
    (h : pyEqStr info.type "cloud_run_revision" = true) :
    ((dispatch e "error_rate_spike" info a).2.head?
        = some (Event.enterAction "scale_cloud_run_service" (pyToName info.name))) ∧
    ((scale_cloud_run_service e (pyToName info.name)).1.status = some "success" →
      dispatch e "error_rate_spike" info a = scale_cloud_run_service e (pyToName info.name) ∧
      ∀ t, Event.enterAction "restart_cloud_run_service" t
        ∉ (dispatch e "error_rate_spike" info a).2) ∧
    ((scale_cloud_run_service e (pyToName info.name)).1.status ≠ some "success" →
      (dispatch e "error_rate_spike" info a).1
        = (restart_cloud_run_service e (pyToName info.name)).1 ∧
      (dispatch e "error_rate_spike" info a).1.action = "cloud_run_restart" ∧
      (dispatch e "error_rate_spike" info a).2
        = (scale_cloud_run_service e (pyToName info.name)).2
            ++ (restart_cloud_run_service e (pyToName info.name)).2) := by
  have hd : dispatch e "error_rate_spike" info a = handle_error_rate_spike e info := rfl
  obtain ⟨restS, hrestS⟩ := scale_trace_shape e (pyToName info.name)
  by_cases hs : (scale_cloud_run_service e (pyToName info.name)).1.status = some "success"
  · have hh : handle_error_rate_spike e info
        = scale_cloud_run_service e (pyToName info.name) := by
      unfold handle_error_rate_spike
      simp [h, hs]
    refine ⟨?_, fun _ => ⟨by rw [hd, hh],
      fun t => by rw [hd, hh]; exact scale_no_restart_entry e _ t⟩,
      fun hns => absurd hs hns⟩
    rw [hd, hh, hrestS]
    rfl
  · have hh : handle_error_rate_spike e info
        = ((restart_cloud_run_service e (pyToName info.name)).1,
           (scale_cloud_run_service e (pyToName info.name)).2
             ++ (restart_cloud_run_service e (pyToName info.name)).2) := by
      unfold handle_error_rate_spike
      simp [h, hs]
    refine ⟨?_, fun hyes => absurd hyes hs,
      fun _ => ⟨by rw [hd, hh], by rw [hd, hh]; exact restart_action_label e _,
        by rw [hd, hh]⟩⟩
    rw [hd, hh]
    dsimp only
    rw [hrestS]
    rfl

/-- An environment whose Cloud Run service is already at the ceiling cap. -/
def envCap : InfraEnv :=
  { envAllOk with
    getServiceRes := .ok { maxInstanceCount := 50, containers := [{ env := [] }] } }

/-- A `cloud_run_revision` resource descriptor named api-svc. -/
def infoRun : ResourceInfo :=
  { type := .pstr "cloud_run_revision",
    labels := .pdict [("service_name", .pstr "api-svc")],
    name := .pstr "api-svc" }

/-- Witness for C1: at the cap the scale outcome is `skipped`, so the
escalation fires and the reported outcome is the ServiceRestart one. -/
theorem error_rate_spike_escalation_witness :
    pyEqStr infoRun.type "cloud_run_revision" = true ∧
    (scale_cloud_run_service envCap "api-svc").1.status = some "skipped" ∧
    (dispatch envCap "error_rate_spike" infoRun (.pdict [])).1
      = (restart_cloud_run_service envCap "api-svc").1 ∧
    (dispatch envCap "error_rate_spike" infoRun (.pdict [])).1.action
      = "cloud_run_restart" :=
  ⟨rfl, rfl,
    ((error_rate_spike_escalation envCap infoRun (.pdict []) rfl).2.2 (by decide)).1,
    ((error_rate_spike_escalation envCap infoRun (.pdict []) rfl).2.2 (by decide)).2.1⟩

/-! ## C3 -/

theorem scale_at_cap_parts (e : InfraEnv) (nm : String) (svc : RunService)
    (hs : e.getServiceRes = .ok svc) (hcap : 50 ≤ svc.maxInstanceCount) :
    (scale_cloud_run_service e nm).1.status = some "skipped" ∧
    (scale_cloud_run_service e nm).2
      = [Event.enterAction "scale_cloud_run_service" nm,
         Event.getService ("projects/" ++ e.projectId ++ "/locations/" ++ e.region
           ++ "/services/" ++ nm)] := by
  unfold scale_cloud_run_service
  rw [hs]
  dsimp only
  rw [if_neg (by omega : ¬ svc.maxInstanceCount = 0)]
  have hnlt : ¬ svc.maxInstanceCount < min (svc.maxInstanceCount + 5) 50 := by
    have hmle := Nat.min_le_right (svc.maxInstanceCount + 5) 50
    omega
  rw [if_neg hnlt]
  exact ⟨rfl, rfl⟩

theorem scale_runs_skipped (e : InfraEnv) (cs : List Container) (nm : String) :
    ∀ n c, 50 ≤ c → ∀ o ∈ scale_runs e cs nm n c, o.status = some "skipped" := by
  intro n
  induction n with
  | zero =>
    intro c hc o ho
    simp [scale_runs] at ho
  | succ k ih =>
    intro c hc o ho
    simp only [scale_runs] at ho
    have hparts := scale_at_cap_parts
      { e with getServiceRes := .ok { maxInstanceCount := c, containers := cs } }
      nm { maxInstanceCount := c, containers := cs } rfl hc
    rcases List.mem_cons.mp ho with h1 | h2
    · rw [h1]
      exact hparts.1
    · have hceil : ceilingAfter c
          (scale_cloud_run_service
            { e with getServiceRes := .ok { maxInstanceCount := c, containers := cs } }
            nm).2 = c := by
        rw [hparts.2]
        rfl
      rw [hceil] at h2
      exact ih c hc o h2

/-- C3: when the service's max-instance ceiling is at or above the cap of
50, the new ceiling `min(current + 5, 50)` is not strictly greater, so
ServiceScale returns status `skipped` (never `failed`, never `success`),
issues no update call, and repeated invocations keep returning `skipped`;
when the ceiling is below the cap it issues the update with the new ceiling
and reports `success` or `failed` according to the update's result. -/
theorem scale_cap_policy (e : InfraEnv) (service_name : String) (svc : RunService)
    (hs : e.getServiceRes = .ok svc) :
    (50 ≤ svc.maxInstanceCount →
      (scale_cloud_run_service e service_name).1.status = some "skipped" ∧
      (scale_cloud_run_service e service_name).1.status ≠ some "failed" ∧
      (scale_cloud_run_service e service_name).1.status ≠ some "success" ∧
      (∀ m c, Event.updateService m c ∉ (scale_cloud_run_service e service_name).2) ∧
      (∀ n, ∀ o ∈ scale_runs e svc.containers service_name n svc.maxInstanceCount,
        o.status = some "skipped")) ∧
    (svc.maxInstanceCount < 50 →
      Event.updateService "template.scaling.max_instance_count"
          (some (min ((if svc.maxInstanceCount = 0 then 10 else svc.maxInstanceCount) + 5) 50))
        ∈ (scale_cloud_run_service e service_name).2 ∧
      (e.updateScaleRes = .ok () →
        (scale_cloud_run_service e service_name).1.status = some "success") ∧
      (∀ m, e.updateScaleRes = .error m →
        (scale_cloud_run_service e service_name).1.status = some "failed" ∧
        (scale_cloud_run_service e service_name).1.error = some m)) := by
  constructor
  · intro hcap
    have hparts := scale_at_cap_parts e service_name svc hs hcap
    refine ⟨hparts.1, by rw [hparts.1]; simp, by rw [hparts.1]; simp, ?_, ?_⟩
    · intro m c
      rw [hparts.2]
      simp
    · intro n o ho
      exact scale_runs_skipped e svc.containers service_name n svc.maxInstanceCount hcap o ho
  · intro hlt
    have h5 : (if svc.maxInstanceCount = 0 then 10 else svc.maxInstanceCount)
        < min ((if svc.maxInstanceCount = 0 then 10 else svc.maxInstanceCount) + 5) 50 := by
      rw [Nat.lt_min]
      by_cases h0 : svc.maxInstanceCount = 0
      · simp [h0]
      · simp [h0]
        omega
    unfold scale_cloud_run_service
    rw [hs]
    dsimp only
    rw [if_pos h5]
    rcases e.updateScaleRes with m | u
    all_goals simp

/-- Witness for C3: at ceiling 50 the outcome is `skipped`, and three
repeated invocations all return `skipped`. -/
theorem scale_cap_policy_witness :
    envCap.getServiceRes = .ok { maxInstanceCount := 50, containers := [{ env := [] }] } ∧
    (50 : Nat) ≤ 50 ∧
    (scale_cloud_run_service envCap "api-svc").1.status = some "skipped" ∧
    (∀ o ∈ scale_runs envCap [{ env := [] }] "api-svc" 3 50,
      o.status = some "skipped") :=
  ⟨rfl, by decide,
    ((scale_cap_policy envCap "api-svc"
        { maxInstanceCount := 50, containers := [{ env := [] }] } rfl).1 (by decide)).1,
    fun o ho =>
      ((scale_cap_policy envCap "api-svc"
        { maxInstanceCount := 50, containers := [{ env := [] }] } rfl).1
          (by decide)).2.2.2.2 3 o ho⟩

/-! ## C4 -/

/-- C4: VmRestart stops, waits, starts, waits; its outcome status is always
`success` or `failed` (no exception escapes the action); `success` is
reported only when all four steps succeeded and both waits were issued; any
failing step — stop, stop-wait, start (even after a successful stop), or
start-wait — yields a single `failed` outcome carrying that step's error. -/
theorem restart_vm_failure_policy (e : InfraEnv) (nm : String) :
    ((restart_vm_instance e nm).1.action = "vm_restart") ∧
    ((restart_vm_instance e nm).1.status = some "success" ∨
      (restart_vm_instance e nm).1.status = some "failed") ∧
    ((restart_vm_instance e nm).1.status = some "success" →
      e.stopRes = .ok () ∧ e.stopWaitRes = .ok () ∧ e.startRes = .ok () ∧
      e.startWaitRes = .ok () ∧
      Event.waitOp "stop" ∈ (restart_vm_instance e nm).2 ∧
      Event.waitOp "start" ∈ (restart_vm_instance e nm).2) ∧
    (∀ msg, e.stopRes = .error msg →
      (restart_vm_instance e nm).1.status = some "failed" ∧
      (restart_vm_instance e nm).1.error = some msg) ∧
    (∀ msg, e.stopRes = .ok () → e.stopWaitRes = .error msg →
      (restart_vm_instance e nm).1.status = some "failed" ∧
      (restart_vm_instance e nm).1.error = some msg) ∧
    (∀ msg, e.stopRes = .ok () → e.stopWaitRes = .ok () → e.startRes = .error msg →
      (restart_vm_instance e nm).1.status = some "failed" ∧
      (restart_vm_instance e nm).1.error = some msg) ∧
    (∀ msg, e.stopRes = .ok () → e.stopWaitRes = .ok () → e.startRes = .ok () →
      e.startWaitRes = .error msg →
      (restart_vm_instance e nm).1.status = some "failed" ∧
      (restart_vm_instance e nm).1.error = some msg) := by
  obtain ⟨sr, swr, st, stw, g, us, ut, nw, p, z, rg⟩ := e
  rcases sr with m1 | u1 <;> rcases swr with m2 | u2 <;> rcases st with m3 | u3 <;>
    rcases stw with m4 | u4 <;>
    simp_all [restart_vm_instance]

/-- The all-ok environment except that the VM start call raises. -/
def envStartFails : InfraEnv := { envAllOk with startRes := .error "start boom" }

/-- Witness for C4: stop and its wait succeed, the start call fails, and the
whole action reports a single `failed` outcome carrying the start error. -/
theorem restart_vm_failure_policy_witness :
    envStartFails.stopRes = .ok () ∧ envStartFails.stopWaitRes = .ok () ∧
    envStartFails.startRes = .error "start boom" ∧
    (restart_vm_instance envStartFails "web-1").1.status = some "failed" ∧
    (restart_vm_instance envStartFails "web-1").1.error = some "start boom" :=
  ⟨rfl, rfl, rfl,
    ((restart_vm_failure_policy envStartFails "web-1").2.2.2.2.2.1
      "start boom" rfl rfl rfl).1,
    ((restart_vm_failure_policy envStartFails "web-1").2.2.2.2.2.1
      "start boom" rfl rfl rfl).2⟩

/-! ## C8 -/

/-- C8: every invocation of `process_alert` returns exactly one of the two
result shapes — the success dict (status `success` with alert type,
resource, action taken, timestamp, and no error field) or the error dict
(status `error` with the caught exception's message and timestamp) — and
never terminates abnormally. -/
theorem process_alert_result_shape (e : InfraEnv) (s : SinkEnv) (a : PyVal) :
    ((process_alert e s a).status = "success" ∧
      (process_alert e s a).alertType.isSome = true ∧
      (process_alert e s a).resource.isSome = true ∧
      (process_alert e s a).actionTaken.isSome = true ∧
      (process_alert e s a).timestamp = some e.now ∧
      (process_alert e s a).error = none) ∨
    ((process_alert e s a).status = "error" ∧
      (process_alert e s a).error.isSome = true ∧
      (process_alert e s a).timestamp = some e.now ∧
      (process_alert e s a).alertType = none ∧
      (process_alert e s a).actionTaken = none) := by
  rcases h : classify_and_extract a with msg | ⟨t, info⟩
  · right
    simp [process_alert, h]
  · left
    simp [process_alert, h]

/-! ## C9 -/

/-- C9: notification and logging are fire-and-forget — `process_alert`
returns the same result whatever the sink configuration and whatever the
sinks' failures (absent configuration simply disables the sink), and
`send_notification` and `log_healing_action` always return without
propagating an error. -/
theorem sinks_fire_and_forget (e : InfraEnv) (s1 s2 : SinkEnv) (a : PyVal)
    (t : String) (info : ResourceInfo) (r : Outcome) :
    process_alert e s1 a = process_alert e s2 a ∧
    send_notification s1 t info r = .ok () ∧
    log_healing_action s1 t info r = .ok () := by
  refine ⟨?_, ?_, ?_⟩
  · rcases h : classify_and_extract a with msg | ⟨tt, ii⟩ <;> simp [process_alert, h]
  · unfold send_notification
    dsimp only
    split <;> rfl
  · unfold log_healing_action
    dsimp only
    split <;> rfl

/-! ## C10 -/

/-- C10: when the chosen recovery action completes by returning an outcome
with status `failed` (no exception escaping), `process_alert` still returns
a top-level result with status `success`; the failure is visible only in
the reported outcome, whose action label the top-level result carries. -/
theorem top_status_ignores_outcome_failure (e : InfraEnv) (s : SinkEnv) (a : PyVal)
    (t : String) (info : ResourceInfo)
    (h : classify_and_extract a = .ok (t, info))
    (_hf : (dispatch e t info a).1.status = some "failed") :
    (process_alert e s a).status = "success" ∧
    (process_alert e s a).actionTaken = some (dispatch e t info a).1.action ∧
    (process_alert e s a).error = none := by
  simp [process_alert, h]

/-- The resource descriptor extracted from `alertCpu`. -/
def infoWeb1 : ResourceInfo :=
  { type := .pstr "gce_instance",
    labels := .pdict [("instance_name", .pstr "web-1")],
    name := .pstr "web-1" }

/-- A sink environment with no sink configured. -/
def sinkNone : SinkEnv :=
  { slackWebhookUrl := none, sendgridApiKey := none,
    notificationEmail := "admin@example.com",
    slackPostRes := .ok (), emailPostRes := .ok (), logWriteRes := .ok () }

/-- Witness for C10: the CPU alert on a VM whose start call fails yields a
`failed` vm_restart outcome, yet the top-level status is `success` and the
action label is still reported. -/
theorem top_status_ignores_outcome_failure_witness :
    classify_and_extract alertCpu = .ok ("high_cpu", infoWeb1) ∧
    (dispatch envStartFails "high_cpu" infoWeb1 alertCpu).1.status = some "failed" ∧
    (process_alert envStartFails sinkNone alertCpu).status = "success" ∧
    (process_alert envStartFails sinkNone alertCpu).actionTaken = some "vm_restart" :=
  ⟨rfl, rfl,
    (top_status_ignores_outcome_failure envStartFails sinkNone alertCpu
      "high_cpu" infoWeb1 rfl rfl).1,
    (top_status_ignores_outcome_failure envStartFails sinkNone alertCpu
      "high_cpu" infoWeb1 rfl rfl).2.1⟩

end AutoHeal
